import Mathlib

/-!
Verification of the trap dispatcher and reservation-lock routine of
`src/apps/TestC/src/main.c` (RISC-V_micro, app TestC).

The C file has three functions:

* `handle_trap` — reads `mcause` and dispatches: timer interrupt
  (`0x80000007`) clears mip bit 7 with `csrc` and rearms
  `*IO_MTIMECMP = *IO_MTIME + 1000`; external interrupt (`0x8000000b`)
  clears mip bit 11; every synchronous-exception case (0,1,2,3,4,5,6,7,8)
  and the `default` case spins in `while (1)`.
* `atomic_lr_sc` — a `lr.w.aq`/`sc.w.rl` retry loop on the word at the
  hard-coded address `0xc0100000`; register `a2` (the store-conditional
  source operand) is never written by the routine.
* `main` — arms the timer once (`*IO_MTIMECMP = *IO_MTIME + 100`),
  prints a greeting, calls `atomic_lr_sc` once.

The embedding models the machine registers touched by this code
(`mip`, `mtime`, `mtimecmp`, the lock word, the `lock_var` global) as
natural numbers with explicit word-size reductions where the hardware
truncates, the infinite `while (1)` idle loops as an explicit terminal
`halted` outcome that carries the register state unchanged (no further
observable writes), and the lr/sc loop as a small-step machine with an
explicit reservation flag per contender.
-/

namespace RiscvMicro

/-- All bits of a 32-bit register set, used to model `csrc`
(clear-bits) on the 32-bit `mip` CSR. -/
def mask32 : Nat := 2 ^ 32 - 1

/-- `csrc mip, mask`: clear in `mip` every bit that is set in `mask`
(32-bit register semantics). -/
def csrcMip (mip mask : Nat) : Nat := mip &&& (mask32 ^^^ mask)

/-- The machine registers read or written by `handle_trap`:
the `mip` pending-interrupt CSR (32-bit), the free-running counter
`*IO_MTIME` and the compare register `*IO_MTIMECMP` (64-bit). -/
structure TrapState where
  mip : Nat
  mtime : Nat
  mtimecmp : Nat
deriving DecidableEq

/-- Outcome of one trap dispatch: `resumed s` models `handle_trap`
returning with register state `s`; `halted s` models the `while (1)`
idle loops — the dispatcher never returns and the register state
remains `s` forever (no further observable writes). -/
inductive TrapResult where
  | resumed (s : TrapState)
  | halted (s : TrapState)
deriving DecidableEq

/-- `handle_trap` of `main.c` lines 18-80: dispatch on `mcause`.
Case `0x80000007` (timer): `csrc mip, 1<<7` then
`*IO_MTIMECMP = *IO_MTIME + 1000` (64-bit store). Case `0x8000000b`
(external): `csrc mip, 1<<11`. Cases 0/1, 2/4/5/6/7, 3, 8 and
`default` all execute `while (1)`. -/
def handle_trap (mcause : Nat) (s : TrapState) : TrapResult :=
  if mcause = 0x80000007 then
    .resumed { s with
      mip := csrcMip s.mip (1 <<< 7),
      mtimecmp := (s.mtime + 1000) % 2 ^ 64 }
  else if mcause = 0x8000000b then
    .resumed { s with mip := csrcMip s.mip (1 <<< 11) }
  else if mcause = 0 ∨ mcause = 1 then
    .halted s
  else if mcause = 2 ∨ mcause = 4 ∨ mcause = 5 ∨ mcause = 6 ∨ mcause = 7 then
    .halted s
  else if mcause = 3 then
    .halted s
  else if mcause = 8 then
    .halted s
  else
    .halted s

/-- The synchronous-exception cause codes that `handle_trap` names in
explicit `case` labels. -/
def syncExceptionCauses : List Nat := [0, 1, 2, 3, 4, 5, 6, 7, 8]

/-- Every cause value with an explicit `case` label in `handle_trap`. -/
def recognizedCauses : List Nat := 0x80000007 :: 0x8000000b :: syncExceptionCauses

/-! ## The reservation lock `atomic_lr_sc` (main.c lines 82-92)

```
again: la a0, 0xc0100000   -- a0 := lock address (NOT the lock_var global)
       li a1, 0
       lr.w.aq a3, (a0)    -- reserved load of the lock word
       bne a3, a1, again   -- loaded value not 0: retry from again
       sc.w.rl a3, a2, (a0)-- conditional store of a2; a3 := 0 on success
       bnez a3, again      -- store failed: retry from again
```

Control locations: `atLR` is the `again:` label (about to run
la/li/lr/bne), `atSC` is just past the `bne` (about to run sc/bnez),
`ret` is fall-through past `bnez` (the routine returns). The routine
never writes register `a2`. -/

/-- Control locations of the `atomic_lr_sc` retry loop. -/
inductive LrScPC where
  | atLR
  | atSC
  | ret
deriving DecidableEq

/-- `lr.w.aq a3, (a0); bne a3, a1, again` with `a1 = 0`: the next
control location as a function of the loaded value. -/
def lrAndBranch (loaded : Nat) : LrScPC :=
  if loaded ≠ 0 then .atLR else .atSC

/-- `sc.w.rl a3, a2, (a0); bnez a3, again`: the next control location
as a function of whether the store-conditional result flag `a3` is
nonzero (nonzero means the store failed). -/
def scAndBranch (scResultNonzero : Bool) : LrScPC :=
  if scResultNonzero then .atLR else .ret

/-- One hart executing `atomic_lr_sc`: its control location, the value
its register `a2` holds (never written by the routine), and whether it
holds a valid reservation on the lock address. -/
structure Contender where
  pc : LrScPC
  a2 : Nat
  resv : Bool
deriving DecidableEq

/-- One atomic step of a contender against the shared lock word `mem`
(the 32-bit word at address `0xc0100000`). Returns the updated word,
the updated contender, and whether a store to the word was performed
(a successful `sc` invalidates the other hart's reservation).

* at `atLR`: run la/li/lr/bne — the reserved load establishes a
  reservation and the branch retries unless the loaded value is 0;
* at `atSC`: run sc/bnez — the store-conditional succeeds only with a
  valid reservation, writing the low 32 bits of `a2`; either way the
  reservation is consumed; on failure the branch goes back to `again`;
* at `ret`: the routine has returned; nothing further happens. -/
def lrScStep (mem : Nat) (c : Contender) : Nat × Contender × Bool :=
  match c.pc with
  | .atLR => (mem, { c with pc := lrAndBranch mem, resv := true }, false)
  | .atSC =>
      if c.resv then
        (c.a2 % 2 ^ 32, { c with pc := scAndBranch false, resv := false }, true)
      else
        (mem, { c with pc := scAndBranch true, resv := false }, false)
  | .ret => (mem, c, false)

/-- A single participant running `atomic_lr_sc` alone: the shared word
and the one contender, stepped `fuel` times (nothing else touches the
word, so its reservation is never invalidated from outside). -/
def soloRun : Nat → Nat × Contender → Nat × Contender
  | 0, s => s
  | fuel + 1, (mem, c) =>
      let (m, c, _) := lrScStep mem c
      soloRun fuel (m, c)

/-- Two contenders racing on the shared lock word. -/
structure LockSys where
  mem : Nat
  c0 : Contender
  c1 : Contender
deriving DecidableEq

/-- One system step: the scheduler picks contender `true` (= `c1`) or
`false` (= `c0`); that contender takes one atomic step, and a
successful store invalidates the other contender's reservation. -/
def sysStep (s : LockSys) (i : Bool) : LockSys :=
  if i then
    let (m, c, stored) := lrScStep s.mem s.c1
    { mem := m, c0 := if stored then { s.c0 with resv := false } else s.c0, c1 := c }
  else
    let (m, c, stored) := lrScStep s.mem s.c0
    { mem := m, c0 := c, c1 := if stored then { s.c1 with resv := false } else s.c1 }

/-- Run the two-contender system under an explicit schedule. -/
def sysRun (s : LockSys) : List Bool → LockSys
  | [] => s
  | i :: rest => sysRun (sysStep s i) rest

/-! ## Whole-program state and operations

`main` (lines 97-111) arms the timer once, prints a greeting and calls
`atomic_lr_sc` once; traps are delivered by hardware at arbitrary
points; the free-running counter `*IO_MTIME` advances on its own.
The state gathers every register and memory cell this program reads or
writes: the three registers of `TrapState`, the global
`uint32_t lock_var = 0` (line 16), and the word at the hard-coded
address `0xc0100000` that `atomic_lr_sc` actually targets (line 85;
the `la a0, lock_var` alternative on line 84 is commented out). -/

/-- Full machine state for whole-program executions. -/
structure Machine where
  mip : Nat
  mtime : Nat
  mtimecmp : Nat
  lock_var : Nat
  lockMem : Nat
deriving DecidableEq

/-- The operations that can occur in an execution: the three statements
of `main`, a hardware trap delivery (running `handle_trap` with the
given cause), and an advance of the free-running counter by the
environment. -/
inductive ProgOp where
  | armTimer
  | printGreeting
  | lockAcquire (a2 : Nat)
  | trap (mcause : Nat)
  | tick (t : Nat)
deriving DecidableEq

/-- Effect of one operation on the machine state.

* `armTimer` — main.c line 99: `*IO_MTIMECMP = *IO_MTIME + 100;`
  (normal-mode code, runs before the greeting);
* `printGreeting` — main.c line 103: touches none of the modeled state;
* `lockAcquire a2` — `atomic_lr_sc()` entered with `a2` in register
  a2: when the lock word is 0 the loop terminates after one successful
  `sc.w.rl` that stores the low 32 bits of `a2`; when it is nonzero the
  routine spins without writing, modeled as leaving the state unchanged;
* `trap mcause` — hardware delivers a trap; `handle_trap` runs on the
  trap-visible registers (a halting dispatch leaves them unchanged and
  writes nothing further);
* `tick t` — the environment advances the 64-bit free-running counter. -/
def progStep (m : Machine) : ProgOp → Machine
  | .armTimer => { m with mtimecmp := (m.mtime + 100) % 2 ^ 64 }
  | .printGreeting => m
  | .lockAcquire a2 => if m.lockMem = 0 then { m with lockMem := a2 % 2 ^ 32 } else m
  | .trap mcause =>
      match handle_trap mcause ⟨m.mip, m.mtime, m.mtimecmp⟩ with
      | .resumed s => { m with mip := s.mip, mtimecmp := s.mtimecmp }
      | .halted s => { m with mip := s.mip, mtimecmp := s.mtimecmp }
  | .tick t => { m with mtime := t % 2 ^ 64 }

/-- Run a whole-program execution: apply a sequence of operations. -/
def progRun (m : Machine) : List ProgOp → Machine
  | [] => m
  | op :: rest => progRun (progStep m op) rest

/-! ## Helper lemmas -/

/-- `csrc mip, 1 << n` clears bit `n` (for an in-range bit index). -/
theorem csrcMip_testBit_self (mip n : Nat) (hn : n < 32) :
    (csrcMip mip (1 <<< n)).testBit n = false := by
  simp only [csrcMip, mask32, Nat.one_shiftLeft, Nat.testBit_and, Nat.testBit_xor,
    Nat.testBit_two_pow_sub_one, Nat.testBit_two_pow]
  simp [hn]

/-- `csrc mip, 1 << n` leaves every bit other than `n` unchanged, for a
32-bit `mip` value. -/
theorem csrcMip_testBit_other (mip n i : Nat) (hmip : mip < 2 ^ 32) (hi : i ≠ n) :
    (csrcMip mip (1 <<< n)).testBit i = mip.testBit i := by
  simp only [csrcMip, mask32, Nat.one_shiftLeft, Nat.testBit_and, Nat.testBit_xor,
    Nat.testBit_two_pow_sub_one, Nat.testBit_two_pow]
  by_cases h32 : i < 32
  · simp [h32, Ne.symm hi]
  · have h1 : mip.testBit i = false :=
      Nat.testBit_lt_two_pow
        (lt_of_lt_of_le hmip (Nat.pow_le_pow_right (by omega) (by omega)))
    simp [h32, h1]

/-- Every cause without one of the two interrupt case labels falls into
a `while (1)` arm: the dispatch halts with the registers unchanged. -/
theorem handle_trap_halt (mcause : Nat) (s : TrapState)
    (h7 : mcause ≠ 0x80000007) (hb : mcause ≠ 0x8000000b) :
    handle_trap mcause s = .halted s := by
  simp only [handle_trap, if_neg h7, if_neg hb]
  split_ifs <;> rfl

/-- No single program operation writes the `lock_var` global. -/
theorem progStep_lock_var (m : Machine) (op : ProgOp) :
    (progStep m op).lock_var = m.lock_var := by
  cases op with
  | armTimer => rfl
  | printGreeting => rfl
  | lockAcquire a2 => simp only [progStep]; split <;> rfl
  | trap mcause =>
      simp only [progStep]
      cases handle_trap mcause ⟨m.mip, m.mtime, m.mtimecmp⟩ <;> rfl
  | tick t => rfl

/-! ## Claim theorems -/

/-- **C1.** For every trap dispatch with cause `0x80000007` (interrupt
bit set, source = timer): `handle_trap` returns, the timer-pending bit
(bit 7) of `mip` is clear afterwards, every other bit of `mip` is
unchanged, and the compare register equals the counter value observed
at rearm time plus the fixed interval 1000. Stated for 32-bit `mip`
values and a non-wrapping 64-bit rearm sum. -/
theorem C1_timer_dispatch (s : TrapState) (hmip : s.mip < 2 ^ 32)
    (hov : s.mtime + 1000 < 2 ^ 64) :
    ∃ s', handle_trap 0x80000007 s = .resumed s' ∧
      s'.mip.testBit 7 = false ∧
      (∀ i, i ≠ 7 → s'.mip.testBit i = s.mip.testBit i) ∧
      s'.mtimecmp = s.mtime + 1000 := by
  refine ⟨⟨csrcMip s.mip (1 <<< 7), s.mtime, (s.mtime + 1000) % 2 ^ 64⟩, ?_, ?_, ?_, ?_⟩
  · simp [handle_trap]
  · exact csrcMip_testBit_self s.mip 7 (by omega)
  · intro i hi
    exact csrcMip_testBit_other s.mip 7 i hmip hi
  · exact Nat.mod_eq_of_lt hov

/-- Witness for C1: the end-to-end scenario of the spec — counter 5000,
all low pending bits set, timer fires; compare becomes 6000 and bit 7
is cleared. -/
theorem C1_timer_dispatch_witness :
    (0xFFFF : Nat) < 2 ^ 32 ∧ (5000 : Nat) + 1000 < 2 ^ 64 ∧
      ∃ s', handle_trap 0x80000007 ⟨0xFFFF, 5000, 0⟩ = .resumed s' ∧
        s'.mip.testBit 7 = false ∧
        (∀ i, i ≠ 7 → s'.mip.testBit i = (0xFFFF : Nat).testBit i) ∧
        s'.mtimecmp = 5000 + 1000 :=
  ⟨by norm_num, by norm_num,
    C1_timer_dispatch ⟨0xFFFF, 5000, 0⟩ (by norm_num) (by norm_num)⟩

/-- **C5.** For every trap dispatch with cause `0x8000000b` (interrupt
bit set, source = external): `handle_trap` returns, only the
external-interrupt pending bit (bit 11) is cleared, every other bit of
`mip` is unchanged, and the compare register is untouched. Stated for
32-bit `mip` values. -/
theorem C5_external_dispatch (s : TrapState) (hmip : s.mip < 2 ^ 32) :
    ∃ s', handle_trap 0x8000000b s = .resumed s' ∧
      s'.mip.testBit 11 = false ∧
      (∀ i, i ≠ 11 → s'.mip.testBit i = s.mip.testBit i) ∧
      s'.mtimecmp = s.mtimecmp := by
  refine ⟨⟨csrcMip s.mip (1 <<< 11), s.mtime, s.mtimecmp⟩, ?_, ?_, ?_, rfl⟩
  · simp [handle_trap]
  · exact csrcMip_testBit_self s.mip 11 (by omega)
  · intro i hi
    exact csrcMip_testBit_other s.mip 11 i hmip hi

/-- Witness for C5: external interrupt with timer and external bits
both pending; only bit 11 is cleared and the compare register keeps its
value. -/
theorem C5_external_dispatch_witness :
    (0x880 : Nat) < 2 ^ 32 ∧
      ∃ s', handle_trap 0x8000000b ⟨0x880, 42, 9999⟩ = .resumed s' ∧
        s'.mip.testBit 11 = false ∧
        (∀ i, i ≠ 11 → s'.mip.testBit i = (0x880 : Nat).testBit i) ∧
        s'.mtimecmp = 9999 :=
  ⟨by norm_num, C5_external_dispatch ⟨0x880, 42, 9999⟩ (by norm_num)⟩

/-- **C4.** For every synchronous exception cause in {0,…,8} and every
unrecognized cause value, `handle_trap` never returns: the dispatch
ends in the terminal `halted` outcome, carrying the register state
unchanged — in this model a halted dispatch performs no observable
register or memory write, and no step follows a halt. -/
theorem C4_exception_halts (mcause : Nat) (s : TrapState)
    (h : mcause ∈ syncExceptionCauses ∨ mcause ∉ recognizedCauses) :
    handle_trap mcause s = .halted s := by
  have h7 : mcause ≠ 0x80000007 := by
    rcases h with h | h
    · simp only [syncExceptionCauses, List.mem_cons, List.not_mem_nil, or_false] at h
      omega
    · simp only [recognizedCauses, syncExceptionCauses, List.mem_cons] at h
      intro hc
      exact h (Or.inl hc)
  have hb : mcause ≠ 0x8000000b := by
    rcases h with h | h
    · simp only [syncExceptionCauses, List.mem_cons, List.not_mem_nil, or_false] at h
      omega
    · simp only [recognizedCauses, syncExceptionCauses, List.mem_cons] at h
      intro hc
      exact h (Or.inr (Or.inl hc))
  exact handle_trap_halt mcause s h7 hb

/-- Witness for C4: an illegal-instruction exception (cause 2) and an
unrecognized cause (9) both halt with the registers unchanged. -/
theorem C4_exception_halts_witness :
    handle_trap 2 ⟨1, 2, 3⟩ = .halted ⟨1, 2, 3⟩ ∧
    handle_trap 9 ⟨1, 2, 3⟩ = .halted ⟨1, 2, 3⟩ :=
  ⟨C4_exception_halts 2 ⟨1, 2, 3⟩ (by decide),
   C4_exception_halts 9 ⟨1, 2, 3⟩ (by decide)⟩

/-- **C6.** Two consecutive timer-interrupt dispatches: each rearms the
compare register to the counter value current at that dispatch plus the
fixed interval 1000; in particular the second rearm is relative to the
then-current counter `t2`, not cumulative from the first rearm. -/
theorem C6_rearm_relative (s1 : TrapState) (t2 : Nat)
    (h1 : s1.mtime + 1000 < 2 ^ 64) (h2 : t2 + 1000 < 2 ^ 64) :
    ∃ s1' s2',
      handle_trap 0x80000007 s1 = .resumed s1' ∧
      s1'.mtimecmp = s1.mtime + 1000 ∧
      handle_trap 0x80000007 { s1' with mtime := t2 } = .resumed s2' ∧
      s2'.mtimecmp = t2 + 1000 := by
  refine ⟨⟨csrcMip s1.mip (1 <<< 7), s1.mtime, (s1.mtime + 1000) % 2 ^ 64⟩,
    ⟨csrcMip (csrcMip s1.mip (1 <<< 7)) (1 <<< 7), t2, (t2 + 1000) % 2 ^ 64⟩,
    ?_, Nat.mod_eq_of_lt h1, ?_, Nat.mod_eq_of_lt h2⟩
  · simp [handle_trap]
  · simp [handle_trap]

/-- Witness for C6: first fire at counter 5000 rearms to 6000; the
counter then advances to 6000 and the second fire rearms to 7000 (not
to the cumulative 5000 + 2000). -/
theorem C6_rearm_relative_witness :
    (5000 : Nat) + 1000 < 2 ^ 64 ∧ (6000 : Nat) + 1000 < 2 ^ 64 ∧
      ∃ s1' s2',
        handle_trap 0x80000007 ⟨0x80, 5000, 0⟩ = .resumed s1' ∧
        s1'.mtimecmp = 5000 + 1000 ∧
        handle_trap 0x80000007 { s1' with mtime := 6000 } = .resumed s2' ∧
        s2'.mtimecmp = 6000 + 1000 :=
  ⟨by norm_num, by norm_num,
    C6_rearm_relative ⟨0x80, 5000, 0⟩ 6000 (by norm_num) (by norm_num)⟩

/-- **C2 (code bug evidence).** With the lock word 0 and register `a2`
equal to 0 at entry — a possible entry state, since `atomic_lr_sc`
never writes `a2` before the `sc.w.rl a3, a2, (a0)` on line 90 — a
single-participant call terminates (control reaches `ret`) but leaves
the lock word equal to 0, not to any fixed non-zero locked sentinel:
the word still reads as unlocked after a successful acquire. -/
theorem C2_acquire_failing_run :
    soloRun 2 (0, ⟨.atLR, 0, false⟩) = (0, ⟨.ret, 0, false⟩) := rfl

/-- **C7.** Loop structure of `atomic_lr_sc`, per step:
at `again:` a reserved load returning a nonzero value branches back to
`again:`; a load returning 0 falls through to the store-conditional; a
failed store-conditional (no valid reservation) writes nothing and
branches back to `again:`; a store-conditional with a valid reservation
reaches `ret`; and the only way a step reaches `ret` from inside the
loop is a store-conditional executed with a valid reservation, i.e. one
that succeeds. -/
theorem C7_loop_structure :
    (∀ mem c, c.pc = .atLR → mem ≠ 0 → ((lrScStep mem c).2.1).pc = .atLR) ∧
    (∀ mem c, c.pc = .atLR → mem = 0 → ((lrScStep mem c).2.1).pc = .atSC) ∧
    (∀ mem c, c.pc = .atSC → c.resv = false →
      ((lrScStep mem c).2.1).pc = .atLR ∧ (lrScStep mem c).1 = mem) ∧
    (∀ mem c, c.pc = .atSC → c.resv = true → ((lrScStep mem c).2.1).pc = .ret) ∧
    (∀ mem c, c.pc ≠ .ret → ((lrScStep mem c).2.1).pc = .ret →
      c.pc = .atSC ∧ c.resv = true) := by
  refine ⟨?_, ?_, ?_, ?_, ?_⟩
  · rintro mem ⟨pc, a2, resv⟩ rfl hmem
    simp [lrScStep, lrAndBranch, hmem]
  · rintro mem ⟨pc, a2, resv⟩ rfl hmem
    simp [lrScStep, lrAndBranch, hmem]
  · rintro mem ⟨pc, a2, resv⟩ rfl rfl
    simp [lrScStep, scAndBranch]
  · rintro mem ⟨pc, a2, resv⟩ rfl rfl
    simp [lrScStep, scAndBranch]
  · rintro mem ⟨pc, a2, resv⟩ hpc hret
    cases pc with
    | atLR =>
        by_cases hmem : mem = 0 <;> simp [lrScStep, lrAndBranch, hmem] at hret
    | atSC =>
        cases resv with
        | false => simp [lrScStep, scAndBranch] at hret
        | true => exact ⟨rfl, rfl⟩
    | ret => exact absurd rfl hpc

/-- Witness for C7: one concrete instance of each hypothesis-bearing
conjunct — spin on a held lock, fall-through on a free lock, retry on a
failed store-conditional, return on a successful one. -/
theorem C7_loop_structure_witness :
    ((lrScStep 5 ⟨.atLR, 3, false⟩).2.1).pc = .atLR ∧
    ((lrScStep 0 ⟨.atLR, 3, false⟩).2.1).pc = .atSC ∧
    ((lrScStep 7 ⟨.atSC, 3, false⟩).2.1).pc = .atLR ∧
    ((lrScStep 7 ⟨.atSC, 3, true⟩).2.1).pc = .ret ∧
    (⟨.atSC, 3, true⟩ : Contender).pc = .atSC :=
  ⟨C7_loop_structure.1 5 ⟨.atLR, 3, false⟩ rfl (by decide),
   C7_loop_structure.2.1 0 ⟨.atLR, 3, false⟩ rfl rfl,
   (C7_loop_structure.2.2.1 7 ⟨.atSC, 3, false⟩ rfl rfl).1,
   C7_loop_structure.2.2.2.1 7 ⟨.atSC, 3, true⟩ rfl rfl,
   (C7_loop_structure.2.2.2.2 7 ⟨.atSC, 3, true⟩ (by decide)
     (C7_loop_structure.2.2.2.1 7 ⟨.atSC, 3, true⟩ rfl rfl)).1⟩

/-- **C8 (code bug evidence).** Two contenders, lock word initially 0,
both entering with `a2 = 0` (again a possible entry state, since the
routine never initializes `a2`): under the schedule "contender 0 runs
its load and store, then contender 1 runs its load and store", BOTH
store-conditionals succeed and both contenders exit the loop acquired,
while the lock word ends at 0 — mutual exclusion does not hold on the
code as written, because the winner's store leaves the word equal to
the unlocked sentinel. -/
theorem C8_two_contenders_failing_run :
    sysRun ⟨0, ⟨.atLR, 0, false⟩, ⟨.atLR, 0, false⟩⟩ [false, false, true, true] =
      ⟨0, ⟨.ret, 0, false⟩, ⟨.ret, 0, false⟩⟩ := rfl

/-- **C10.** `atomic_lr_sc` never writes register `a2`: no step of the
routine changes a contender's `a2`, and a single-participant call on a
free lock word terminates with the lock word holding the low 32 bits of
whatever `a2` held at entry — for `a2 = 0` the stored value is 0. -/
theorem C10_a2_passthrough (a2 : Nat) :
    (∀ mem c, ((lrScStep mem c).2.1).a2 = c.a2) ∧
    soloRun 2 (0, ⟨.atLR, a2, false⟩) = (a2 % 2 ^ 32, ⟨.ret, a2, false⟩) := by
  constructor
  · rintro mem ⟨pc, a2c, resv⟩
    cases pc <;> cases resv <;> rfl
  · simp [soloRun, lrScStep, lrAndBranch, scAndBranch]

/-- **C3 (counterexample).** The claim "the Timer Compare Register is
written only from inside the Trap Dispatcher, never from normal-mode
code such as `main`" is false: `main`'s first statement
(`*IO_MTIMECMP = *IO_MTIME + 100;`, line 99) is normal-mode code and
changes the compare register — here from 7 to 100. -/
theorem C3_counterexample :
    (progStep ⟨0, 0, 7, 0, 0⟩ .armTimer).mtimecmp ≠
      (⟨0, 0, 7, 0, 0⟩ : Machine).mtimecmp := by
  decide

/-- **C3 (amended).** The Pending-Interrupt Bit Field is written only
from inside the Trap Dispatcher: no normal-mode operation (the startup
timer arm, the greeting, the lock acquire, a counter tick) changes
`mip`; and among normal-mode operations only the single startup timer
arm in `main` writes the Timer Compare Register. -/
theorem C3_normal_mode_frame (m : Machine) (a2 t : Nat) :
    (progStep m .armTimer).mip = m.mip ∧
    (progStep m .printGreeting).mip = m.mip ∧
    (progStep m (.lockAcquire a2)).mip = m.mip ∧
    (progStep m (.tick t)).mip = m.mip ∧
    (progStep m .printGreeting).mtimecmp = m.mtimecmp ∧
    (progStep m (.lockAcquire a2)).mtimecmp = m.mtimecmp ∧
    (progStep m (.tick t)).mtimecmp = m.mtimecmp := by
  refine ⟨rfl, rfl, ?_, rfl, rfl, ?_, rfl⟩ <;>
    · simp only [progStep]
      split <;> rfl

/-- **C9.** The global `lock_var` (line 16) is never read or written by
any operation of the program — `atomic_lr_sc` targets the hard-coded
address `0xc0100000` (line 85) instead — so every whole-program
execution leaves `lock_var` at its initial value, hence at its
initializer 0. -/
theorem C9_lock_var_untouched (m : Machine) (ops : List ProgOp) :
    (progRun m ops).lock_var = m.lock_var := by
  induction ops generalizing m with
  | nil => rfl
  | cons op rest ih =>
      simp only [progRun]
      rw [ih, progStep_lock_var]

end RiscvMicro
